/- Verification of the ypodo/VisualQuestionAnswering repository.

   Part 1 embeds the script src/main.py: a straight-line program that builds
   one document-question-answering pipeline and runs four hardcoded queries,
   printing each raw result.

   Part 2 models the AnswerRequestRunner core that spec.md specifies
   (sections 2-8).  That component does not appear in the source tree, so it
   is modelled directly from the spec's words. -/
import Mathlib

namespace VQA

/-! Part 1: the script src/main.py. -/

/-- Task string passed to `pipeline` in src/main.py line 4. -/
def pipelineTask : String := "document-question-answering"

/-- Model name passed to `pipeline` in src/main.py line 5. -/
def pipelineModel : String := "impira/layoutlm-document-qa"

/-- The four hardcoded (image URL, question) pairs of src/main.py
    lines 8-31, in program order. -/
def mainQueries : List (String × String) :=
  [("https://templates.invoicehome.com/invoice-template-us-neat-750px.png",
    "What is the invoice number?"),
   ("https://miro.medium.com/max/787/1*iECQRIiOGTmEFLdWkVIH2g.jpeg",
    "What is the purchase amount?"),
   ("https://www.accountingcoach.com/wp-content/uploads/2013/10/income-statement-example@2x.png",
    "What are the 2020 net sales?"),
   ("https://1.bp.blogspot.com/-BW3v9mAyzKY/XiLJePf90KI/AAAAAAABMi8/bbdAplvI-dsejDoT4ukBxj72gCYk9GZ2gCLcBGAsYHQ/s1600/license-plate-2020.jpg",
    "What are the car plate text?")]

/-- Observable trace of one run of src/main.py: the (task, model) pairs the
    script constructed a pipeline for, the (url, question) pairs it sent to
    the pipeline, the raw outputs it printed, and the uncaught exception if
    the run aborted (`none` means the script ran to completion). -/
structure ScriptRun (ε α : Type) where
  constructions : List (String × String)
  calls : List (String × String)
  printed : List α
  uncaught : Option ε
deriving DecidableEq

/-- Sequential call-and-print loop of src/main.py lines 8-33: each query is
    sent to the pipeline and its raw output printed; an exception aborts the
    run at once (nothing further is called or printed) and propagates.
    Returns (calls made, outputs printed, uncaught exception). -/
def runCalls {ε α : Type} (nlp : String → String → Except ε α) :
    List (String × String) → List (String × String) × List α × Option ε
  | [] => ([], [], none)
  | p :: rest =>
    match nlp p.1 p.2 with
    | .error e => ([p], [], some e)
    | .ok o =>
      let r := runCalls nlp rest
      (p :: r.1, o :: r.2.1, r.2.2)

/-- Whole run of src/main.py: construct the pipeline once (lines 3-6), then
    run the four hardcoded queries in order (lines 8-33).  `mk` is the
    behavior of the external `pipeline` constructor; the constructed value is
    the pipeline function itself, which may fail on any call. -/
def runScript {ε α : Type}
    (mk : String → String → Except ε (String → String → Except ε α)) :
    ScriptRun ε α :=
  match mk pipelineTask pipelineModel with
  | .error e => ⟨[(pipelineTask, pipelineModel)], [], [], some e⟩
  | .ok nlp =>
    let r := runCalls nlp mainQueries
    ⟨[(pipelineTask, pipelineModel)], r.1, r.2.1, r.2.2⟩

/-! Part 2: the AnswerRequestRunner core of spec.md, modelled from the spec. -/

instance {ε α : Type} [DecidableEq ε] [DecidableEq α] : DecidableEq (Except ε α)
  | .error a, .error b =>
    if h : a = b then .isTrue (by rw [h])
    else .isFalse (fun hc => h (Except.error.inj hc))
  | .error _, .ok _ => .isFalse (fun hc => Except.noConfusion hc)
  | .ok _, .error _ => .isFalse (fun hc => Except.noConfusion hc)
  | .ok a, .ok b =>
    if h : a = b then .isTrue (by rw [h])
    else .isFalse (fun hc => h (Except.ok.inj hc))

/-- Modelled from the spec: whitespace trimming of the question (spec
    section 4.1 asks that the question be non-empty after trimming
    whitespace): leading and trailing whitespace characters are dropped. -/
def trimWs (s : String) : String :=
  ⟨((s.data.dropWhile Char.isWhitespace).reverse.dropWhile Char.isWhitespace).reverse⟩

/-- Modelled from the spec: the `kind` enum of DocumentReference (spec
    section 3); the component itself is absent from src/. -/
inductive DocumentKind : Type
  | remote_url
  | local_path
  | in_memory_bytes
deriving DecidableEq

/-- Modelled from the spec: DocumentReference (spec section 3), absent from
    src/: a locator string plus a kind. -/
structure DocumentReference where
  locator : String
  kind : DocumentKind
deriving DecidableEq

/-- Modelled from the spec: the subtypes of BackendError named in spec
    sections 7 and 8 (timeout, unreachable, malformed response, unsupported
    document format); absent from src/. -/
inductive BackendErrorKind : Type
  | timeout
  | unreachable
  | malformedResponse
  | unsupportedFormat
deriving DecidableEq

/-- Modelled from the spec: BackendError with `kind` and `message` (spec
    section 6); absent from src/. -/
structure BackendError where
  kind : BackendErrorKind
  message : String
deriving DecidableEq

/-- Modelled from the spec: the raw backend response shape of spec section 6,
    `\x7b answer: string, confidence: float, start: int|null, end: int|null \x7d`,
    absent from src/.  `answer := none` models a missing answer field;
    confidence is modelled as a rational. -/
structure RawResult where
  answer : Option String
  confidence : ℚ
  start : Option Int
  «end» : Option Int
deriving DecidableEq

/-- Modelled from the spec: the InferenceBackend capability of spec sections
    3 and 6, absent from src/: `infer(document, question)` returns a raw
    result or fails with BackendError. -/
def InferenceBackend : Type :=
  DocumentReference → String → Except BackendError RawResult

/-- Modelled from the spec: the AnswerResult record of spec section 3,
    absent from src/. -/
structure AnswerResult where
  answer_text : String
  confidence : ℚ
  start_token : Option Int
  end_token : Option Int
deriving DecidableEq

/-- Modelled from the spec: the normalized empty-answer result (spec section
    3 invariant: empty answer text, confidence 0, both offsets null). -/
def emptyAnswer : AnswerResult :=
  { answer_text := "", confidence := 0, start_token := none, end_token := none }

/-- Modelled from the spec: result normalization (spec section 4.1): an empty
    or missing answer field, or confidence below zero, normalizes to the
    empty-answer result; otherwise the raw fields are carried through. -/
def normalize (raw : RawResult) : AnswerResult :=
  match raw.answer with
  | none => emptyAnswer
  | some a =>
    if a = "" ∨ raw.confidence < 0 then emptyAnswer
    else { answer_text := a, confidence := raw.confidence,
           start_token := raw.start, end_token := raw.«end» }

/-- Modelled from the spec: the outcome of `ask` (spec section 6): a
    normalized AnswerResult, an InvalidRequestError, or a BackendError. -/
inductive AskOutcome : Type
  | ok (result : AnswerResult)
  | invalidRequest
  | backendFailure (e : BackendError)
deriving DecidableEq

/-- Modelled from the spec: the AnswerRequestRunner (spec section 4.1),
    absent from src/: configured with exactly one InferenceBackend for its
    lifetime and holding no other state. -/
structure AnswerRequestRunner where
  backend : InferenceBackend

/-- Modelled from the spec: `ask` (spec section 4.1), absent from src/.
    Validates the request (non-empty locator, non-empty question after
    trimming), failing fast with InvalidRequestError before any backend
    call; otherwise calls the backend exactly once and either propagates its
    BackendError or normalizes its raw result.  Besides the outcome it
    returns the list of backend calls made (so call counting is explicit)
    and the runner state after the call (so statelessness is explicit). -/
def AnswerRequestRunner.ask (runner : AnswerRequestRunner)
    (doc : DocumentReference) (question : String) :
    (AskOutcome × List (DocumentReference × String)) × AnswerRequestRunner :=
  if doc.locator = "" ∨ trimWs question = "" then
    ((.invalidRequest, []), runner)
  else
    match runner.backend doc question with
    | .error e => ((.backendFailure e, [(doc, question)]), runner)
    | .ok raw => ((.ok (normalize raw), [(doc, question)]), runner)

/-- Modelled from the spec: a request is valid when the locator is non-empty
    and the question is non-empty after trimming whitespace (spec section
    4.1 preconditions). -/
def validRequest (doc : DocumentReference) (question : String) : Prop :=
  doc.locator ≠ "" ∧ trimWs question ≠ ""

instance (doc : DocumentReference) (question : String) :
    Decidable (validRequest doc question) :=
  inferInstanceAs (Decidable (doc.locator ≠ "" ∧ trimWs question ≠ ""))

/-- An optional token offset is admissible when absent or non-negative. -/
def NonnegOffset : Option Int → Prop
  | none => True
  | some n => 0 ≤ n

instance : ∀ o, Decidable (NonnegOffset o)
  | none => .isTrue trivial
  | some n => inferInstanceAs (Decidable (0 ≤ n))

/-- Two optional token offsets are ordered when, whenever both are present,
    the end does not precede the start. -/
def OrderedOffsets : Option Int → Option Int → Prop
  | some s, some e => s ≤ e
  | _, _ => True

instance : ∀ s e, Decidable (OrderedOffsets s e)
  | none, _ => .isTrue trivial
  | some _, none => .isTrue trivial
  | some s, some e => inferInstanceAs (Decidable (s ≤ e))

/-- Validity invariant of AnswerResult (spec section 3): confidence in
    [0,1]; each token offset null or non-negative, ordered when both
    present; and the empty-answer invariant. -/
def validAnswerResult (r : AnswerResult) : Prop :=
  0 ≤ r.confidence ∧ r.confidence ≤ 1 ∧
  NonnegOffset r.start_token ∧ NonnegOffset r.end_token ∧
  OrderedOffsets r.start_token r.end_token ∧
  (r.answer_text = "" → r.confidence = 0 ∧ r.start_token = none ∧ r.end_token = none)

instance (r : AnswerResult) : Decidable (validAnswerResult r) :=
  inferInstanceAs (Decidable (_ ∧ _ ∧ _ ∧ _ ∧ _ ∧ _))

/-- Interface contract of a raw backend result (spec sections 3 and 6 plus
    the glossary: confidence a scalar in [0,1] from above, offsets
    non-negative and ordered when present).  Results below the confidence
    floor are screened out by `normalize`, so no lower bound is assumed. -/
def rawWellFormed (raw : RawResult) : Prop :=
  raw.confidence ≤ 1 ∧ NonnegOffset raw.start ∧ NonnegOffset raw.«end» ∧
  OrderedOffsets raw.start raw.«end»

instance (raw : RawResult) : Decidable (rawWellFormed raw) :=
  inferInstanceAs (Decidable (_ ∧ _ ∧ _ ∧ _))

/-! Concrete mock collaborators used to instantiate the theorems below. -/

/-- A document reference with a non-empty locator. -/
def sampleDoc : DocumentReference :=
  { locator := "invoice.png", kind := .remote_url }

/-- A confident raw backend result with integral confidence. -/
def mockRaw : RawResult :=
  { answer := some "us-001", confidence := 1, start := some 15, «end» := some 15 }

/-- A mock backend that always reports `mockRaw`. -/
def mockBackend : InferenceBackend :=
  fun _ _ => .ok mockRaw

/-- The raw backend result of the spec's invoice scenario. -/
def invoiceRaw : RawResult :=
  { answer := some "us-001", confidence := 0.994, start := some 15, «end» := some 15 }

/-- A mock backend that always reports the invoice-scenario raw result. -/
def invoiceBackend : InferenceBackend :=
  fun _ _ => .ok invoiceRaw

/-- A raw backend result with confidence below zero. -/
def negConfRaw : RawResult :=
  { answer := some "spurious", confidence := -0.1, start := some 1, «end» := some 2 }

/-- A mock backend that always reports the negative-confidence raw result. -/
def negConfBackend : InferenceBackend :=
  fun _ _ => .ok negConfRaw

/-- A raw backend result whose answer field is missing. -/
def missingAnswerRaw : RawResult :=
  { answer := none, confidence := 1, start := some 1, «end» := some 2 }

/-- A mock backend that always reports the missing-answer raw result. -/
def missingAnswerBackend : InferenceBackend :=
  fun _ _ => .ok missingAnswerRaw

/-- A mock backend that always fails with a timeout. -/
def timeoutBackend : InferenceBackend :=
  fun _ _ => .error { kind := .timeout, message := "backend timed out" }

/-- A mock pipeline that answers 7 on every query except the third hardcoded
    one, on which it raises. -/
def failNlp : String → String → Except String Nat :=
  fun _ q => if q = "What are the 2020 net sales?" then .error "pipeline failure" else .ok 7

/-! Helper lemmas shared by the claim theorems. -/

/-- The runner configuration returned by `ask` is the one it was called
    with, in every branch. -/
theorem ask_runner_unchanged (runner : AnswerRequestRunner)
    (doc : DocumentReference) (question : String) :
    (runner.ask doc question).2 = runner := by
  unfold AnswerRequestRunner.ask
  split
  · rfl
  · cases runner.backend doc question <;> rfl

/-- The empty-answer result satisfies the full validity invariant. -/
theorem emptyAnswer_valid : validAnswerResult emptyAnswer := by decide

/-- Normalization of a well-formed raw result satisfies the validity
    invariant. -/
theorem normalize_valid (raw : RawResult) (hwf : rawWellFormed raw) :
    validAnswerResult (normalize raw) := by
  cases ha : raw.answer with
  | none =>
    simp only [normalize, ha]
    exact emptyAnswer_valid
  | some a =>
    by_cases hcase : a = "" ∨ raw.confidence < 0
    · simp only [normalize, ha, if_pos hcase]
      exact emptyAnswer_valid
    · simp only [normalize, ha, if_neg hcase]
      push_neg at hcase
      exact ⟨hcase.2, hwf.1, hwf.2.1, hwf.2.2.1, hwf.2.2.2,
        fun he => absurd he hcase.1⟩

/-- Normalization always yields a result satisfying the empty-answer
    invariant, with no assumption on the raw result. -/
theorem normalize_empty_invariant (raw : RawResult) :
    (normalize raw).answer_text = "" →
      (normalize raw).confidence = 0 ∧ (normalize raw).start_token = none ∧
      (normalize raw).end_token = none := by
  cases ha : raw.answer with
  | none =>
    simp only [normalize, ha]
    exact fun _ => ⟨rfl, rfl, rfl⟩
  | some a =>
    by_cases hcase : a = "" ∨ raw.confidence < 0
    · simp only [normalize, ha, if_pos hcase]
      exact fun _ => ⟨rfl, rfl, rfl⟩
    · simp only [normalize, ha, if_neg hcase]
      push_neg at hcase
      exact fun he => absurd he hcase.1

/-- On a valid request whose backend call succeeds, `ask` returns the
    normalized result and one backend call. -/
theorem ask_valid_ok (runner : AnswerRequestRunner) (doc : DocumentReference)
    (question : String) (raw : RawResult) (hv : validRequest doc question)
    (hb : runner.backend doc question = .ok raw) :
    (runner.ask doc question).1 = (.ok (normalize raw), [(doc, question)]) := by
  unfold AnswerRequestRunner.ask
  rw [if_neg (not_or.mpr ⟨hv.1, hv.2⟩)]
  simp [hb]

/-- On a valid request whose backend call fails, `ask` propagates the
    backend error after one backend call. -/
theorem ask_valid_error (runner : AnswerRequestRunner) (doc : DocumentReference)
    (question : String) (e : BackendError) (hv : validRequest doc question)
    (hb : runner.backend doc question = .error e) :
    (runner.ask doc question).1 = (.backendFailure e, [(doc, question)]) := by
  unfold AnswerRequestRunner.ask
  rw [if_neg (not_or.mpr ⟨hv.1, hv.2⟩)]
  simp [hb]

/-- The literal negative confidence used by the boundary scenario is below
    zero. -/
theorem negConfRaw_confidence_neg : negConfRaw.confidence < 0 := by
  show (-0.1 : ℚ) < 0
  norm_num

/-- If the pipeline succeeds on the first i queries and raises on query i,
    the call loop of src/main.py stops right after the failing call: the
    calls made are the first i+1 queries, the printed outputs are the first
    i results, and the exception propagates. -/
theorem runCalls_stops_at_failure {ε α : Type} (nlp : String → String → Except ε α)
    (qs : List (String × String)) :
    ∀ (i : Nat) (hi : i < qs.length) (f : Nat → α) (e : ε),
      (∀ j (hj : j < qs.length), j < i →
        nlp (qs.get ⟨j, hj⟩).1 (qs.get ⟨j, hj⟩).2 = .ok (f j)) →
      nlp (qs.get ⟨i, hi⟩).1 (qs.get ⟨i, hi⟩).2 = .error e →
      runCalls nlp qs = (qs.take (i + 1), (List.range i).map f, some e) := by
  induction qs with
  | nil =>
    intro i hi
    exact absurd hi (by simp)
  | cons p rest ih =>
    intro i hi f e hok hfail
    cases i with
    | zero =>
      have hfail0 : nlp p.1 p.2 = .error e := hfail
      simp [runCalls, hfail0]
    | succ i' =>
      have h0 : nlp p.1 p.2 = .ok (f 0) := hok 0 (by simp) (Nat.succ_pos i')
      have ih' := ih i' (Nat.lt_of_succ_lt_succ hi) (fun j => f (j + 1)) e
        (fun j hj hji => hok (j + 1) (Nat.succ_lt_succ hj) (Nat.succ_lt_succ hji))
        hfail
      simp [runCalls, h0, ih', List.range_succ_eq_map, List.map_map, Function.comp]

/-! The claim theorems. -/

/-- Claim C1: whenever the document locator is empty or the question is
    empty or whitespace-only after trimming, `ask` fails with
    InvalidRequestError and the backend is never invoked (zero backend
    calls occur during that invocation). -/
theorem ask_invalid_request_fails_fast (runner : AnswerRequestRunner)
    (doc : DocumentReference) (question : String)
    (h : doc.locator = "" ∨ trimWs question = "") :
    (runner.ask doc question).1.1 = .invalidRequest ∧
    (runner.ask doc question).1.2 = [] := by
  unfold AnswerRequestRunner.ask
  rw [if_pos h]
  exact ⟨rfl, rfl⟩

/-- Witness for C1: a whitespace-only question is rejected without any
    backend call. -/
theorem ask_invalid_request_fails_fast_witness :
    ((AnswerRequestRunner.mk mockBackend).ask sampleDoc "   ").1.1 = .invalidRequest ∧
    ((AnswerRequestRunner.mk mockBackend).ask sampleDoc "   ").1.2 = [] :=
  ask_invalid_request_fails_fast (AnswerRequestRunner.mk mockBackend) sampleDoc "   "
    (Or.inr (by decide))

/-- Claim C2: every AnswerResult returned by `ask` against a backend whose
    successful responses respect the raw interface contract satisfies the
    record's validity invariant: confidence in [0,1], token offsets null or
    non-negative and ordered, and the empty-answer invariant. -/
theorem ask_result_satisfies_invariant (runner : AnswerRequestRunner)
    (doc : DocumentReference) (question : String) (r : AnswerResult)
    (hwf : ∀ raw, runner.backend doc question = .ok raw → rawWellFormed raw)
    (h : (runner.ask doc question).1.1 = .ok r) :
    validAnswerResult r := by
  unfold AnswerRequestRunner.ask at h
  by_cases hv : doc.locator = "" ∨ trimWs question = ""
  · rw [if_pos hv] at h
    exact AskOutcome.noConfusion h
  · rw [if_neg hv] at h
    cases hb : runner.backend doc question with
    | error e =>
      simp [hb] at h
    | ok raw =>
      simp [hb] at h
      exact h ▸ normalize_valid raw (hwf raw hb)

/-- Witness for C2: the result carried through from a contract-respecting
    confident backend response satisfies the validity invariant. -/
theorem ask_result_satisfies_invariant_witness :
    validAnswerResult
      { answer_text := "us-001", confidence := 1,
        start_token := some 15, end_token := some 15 } :=
  ask_result_satisfies_invariant (AnswerRequestRunner.mk mockBackend) sampleDoc
    "What is the invoice number?"
    { answer_text := "us-001", confidence := 1,
      start_token := some 15, end_token := some 15 }
    (fun raw hraw => by injection hraw with h2; subst h2; decide)
    (by decide)

/-- Claim C3: on a valid request, a backend response with an empty or
    missing answer field, or confidence below zero, makes `ask` return the
    normalized empty-answer result instead of propagating the backend's
    values. -/
theorem ask_normalizes_no_answer (runner : AnswerRequestRunner)
    (doc : DocumentReference) (question : String) (raw : RawResult)
    (hv : validRequest doc question)
    (hb : runner.backend doc question = .ok raw)
    (hna : raw.answer = none ∨ raw.answer = some "" ∨ raw.confidence < 0) :
    (runner.ask doc question).1.1 = .ok emptyAnswer := by
  have hnorm : normalize raw = emptyAnswer := by
    rcases hna with h2 | h2 | h2
    · simp [normalize, h2]
    · simp [normalize, h2]
    · cases ha : raw.answer with
      | none => simp [normalize, ha]
      | some a =>
        simp only [normalize, ha]
        rw [if_pos (Or.inr h2)]
  have h2 := ask_valid_ok runner doc question raw hv hb
  have h3 : (runner.ask doc question).1.1 = .ok (normalize raw) := by rw [h2]
  rw [h3, hnorm]

/-- Witness for C3: a missing answer and a confidence of -0.1 both
    normalize to the empty-answer result. -/
theorem ask_normalizes_no_answer_witness :
    ((AnswerRequestRunner.mk missingAnswerBackend).ask sampleDoc
        "What is the invoice number?").1.1 = .ok emptyAnswer ∧
    ((AnswerRequestRunner.mk negConfBackend).ask sampleDoc
        "What is the invoice number?").1.1 = .ok emptyAnswer :=
  ⟨ask_normalizes_no_answer (AnswerRequestRunner.mk missingAnswerBackend) sampleDoc
      "What is the invoice number?" missingAnswerRaw (by decide) rfl (Or.inl rfl),
   ask_normalizes_no_answer (AnswerRequestRunner.mk negConfBackend) sampleDoc
      "What is the invoice number?" negConfRaw (by decide) rfl
      (Or.inr (Or.inr negConfRaw_confidence_neg))⟩

/-- Claim C4: on a valid request, one invocation of `ask` calls the backend
    exactly once, with the validated pair, whether the backend call
    succeeds or fails; no retry happens inside the runner. -/
theorem ask_calls_backend_exactly_once (runner : AnswerRequestRunner)
    (doc : DocumentReference) (question : String)
    (hv : validRequest doc question) :
    (runner.ask doc question).1.2 = [(doc, question)] := by
  unfold AnswerRequestRunner.ask
  rw [if_neg (not_or.mpr ⟨hv.1, hv.2⟩)]
  cases runner.backend doc question <;> rfl

/-- Witness for C4: even a backend that times out is called exactly once. -/
theorem ask_calls_backend_exactly_once_witness :
    ((AnswerRequestRunner.mk timeoutBackend).ask sampleDoc
        "What is the invoice number?").1.2 =
      [(sampleDoc, "What is the invoice number?")] :=
  ask_calls_backend_exactly_once (AnswerRequestRunner.mk timeoutBackend) sampleDoc
    "What is the invoice number?" (by decide)

/-- Claim C5: on a valid request, `ask` either returns a complete
    AnswerResult satisfying the empty-answer invariant or fails with the
    backend's own BackendError (so its kind field identifies the failure
    subtype); a backend failure is never swallowed. -/
theorem ask_complete_or_typed_failure (runner : AnswerRequestRunner)
    (doc : DocumentReference) (question : String)
    (hv : validRequest doc question) :
    (∃ r, (runner.ask doc question).1.1 = .ok r ∧
      (r.answer_text = "" → r.confidence = 0 ∧ r.start_token = none ∧
        r.end_token = none)) ∨
    (∃ e, runner.backend doc question = .error e ∧
      (runner.ask doc question).1.1 = .backendFailure e) := by
  cases hb : runner.backend doc question with
  | error e =>
    right
    exact ⟨e, rfl, by rw [ask_valid_error runner doc question e hv hb]⟩
  | ok raw =>
    left
    exact ⟨normalize raw, by rw [ask_valid_ok runner doc question raw hv hb],
      normalize_empty_invariant raw⟩

/-- Witness for C5: against a backend that times out, `ask` on a valid
    request yields one of the two typed outcomes. -/
theorem ask_complete_or_typed_failure_witness :
    (∃ r, ((AnswerRequestRunner.mk timeoutBackend).ask sampleDoc
        "What is the invoice number?").1.1 = .ok r ∧
      (r.answer_text = "" → r.confidence = 0 ∧ r.start_token = none ∧
        r.end_token = none)) ∨
    (∃ e, (AnswerRequestRunner.mk timeoutBackend).backend sampleDoc
        "What is the invoice number?" = .error e ∧
      ((AnswerRequestRunner.mk timeoutBackend).ask sampleDoc
        "What is the invoice number?").1.1 = .backendFailure e) :=
  ask_complete_or_typed_failure (AnswerRequestRunner.mk timeoutBackend) sampleDoc
    "What is the invoice number?" (by decide)

/-- Claim C6: `ask` is deterministic with respect to the backend: invoking
    it twice in sequence with identical inputs (threading the runner state
    returned by the first call into the second) produces identical
    outcomes and traces. -/
theorem ask_deterministic (runner : AnswerRequestRunner)
    (doc : DocumentReference) (question : String) :
    (((runner.ask doc question).2).ask doc question).1 =
      (runner.ask doc question).1 := by
  rw [ask_runner_unchanged]

/-- Claim C7: for the invoice scenario, the confident raw backend result
    is carried through field-for-field. -/
theorem ask_invoice_scenario :
    ((AnswerRequestRunner.mk invoiceBackend).ask
        { locator := "invoice.png", kind := .remote_url }
        "What is the invoice number?").1.1 =
      .ok { answer_text := "us-001", confidence := 0.994,
            start_token := some 15, end_token := some 15 } := by
  have hv : validRequest { locator := "invoice.png", kind := DocumentKind.remote_url }
      "What is the invoice number?" := by decide
  have h2 := ask_valid_ok (AnswerRequestRunner.mk invoiceBackend)
    { locator := "invoice.png", kind := .remote_url }
    "What is the invoice number?" invoiceRaw hv rfl
  have h3 : ((AnswerRequestRunner.mk invoiceBackend).ask
      { locator := "invoice.png", kind := .remote_url }
      "What is the invoice number?").1.1 = .ok (normalize invoiceRaw) := by rw [h2]
  have hnorm : normalize invoiceRaw =
      { answer_text := "us-001", confidence := 0.994,
        start_token := some 15, end_token := some 15 } := by
    simp only [normalize, invoiceRaw]
    rw [if_neg]
    push_neg
    exact ⟨by decide, by norm_num⟩
  rw [h3, hnorm]

/-- Claim C8: `ask` leaves the runner's state (its configured backend and
    all other fields) unchanged, whether it succeeds or fails. -/
theorem ask_stateless (runner : AnswerRequestRunner)
    (doc : DocumentReference) (question : String) :
    (runner.ask doc question).2 = runner :=
  ask_runner_unchanged runner doc question

/-- Claim C9: on a run where the pipeline constructor and every call
    succeed, src/main.py constructs the document-question-answering
    pipeline exactly once with model impira/layoutlm-document-qa, issues
    exactly the four hardcoded queries in program order, and prints each
    raw result unmodified, with no validation or normalization in either
    direction. -/
theorem script_four_queries_raw {ε α : Type} (f : String → String → α) :
    runScript (fun _ _ => (.ok (fun u q => .ok (f u q)) : Except ε _)) =
      ⟨[(pipelineTask, pipelineModel)], mainQueries,
        mainQueries.map (fun p => f p.1 p.2), none⟩ :=
  rfl

/-- Claim C10: if pipeline construction fails, src/main.py makes no
    pipeline calls and prints nothing; if the pipeline raises on query i
    after answering the first i queries, the script stops with that call,
    the i results already printed remain the only output, and the
    exception propagates uncaught. -/
theorem script_stops_at_first_failure {ε α : Type} :
    (∀ e : ε, runScript (α := α) (fun _ _ => .error e) =
      ⟨[(pipelineTask, pipelineModel)], [], [], some e⟩) ∧
    (∀ (nlp : String → String → Except ε α) (i : Nat)
      (hi : i < mainQueries.length) (f : Nat → α) (e : ε),
      (∀ j (hj : j < mainQueries.length), j < i →
        nlp (mainQueries.get ⟨j, hj⟩).1 (mainQueries.get ⟨j, hj⟩).2 = .ok (f j)) →
      nlp (mainQueries.get ⟨i, hi⟩).1 (mainQueries.get ⟨i, hi⟩).2 = .error e →
      runScript (fun _ _ => .ok nlp) =
        ⟨[(pipelineTask, pipelineModel)], mainQueries.take (i + 1),
          (List.range i).map f, some e⟩) := by
  constructor
  · intro e
    rfl
  · intro nlp i hi f e hok hfail
    have h := runCalls_stops_at_failure nlp mainQueries i hi f e hok hfail
    simp [runScript, h]

/-- Witness for C10: a pipeline that answers the first two queries with 7
    and raises on the third stops the script after the third call with
    exactly two printed results. -/
theorem script_stops_at_first_failure_witness :
    runScript (fun _ _ => .ok failNlp) =
      ⟨[(pipelineTask, pipelineModel)], mainQueries.take 3,
        [7, 7], some "pipeline failure"⟩ := by
  have h := (script_stops_at_first_failure (ε := String) (α := Nat)).2 failNlp 2
    (by decide) (fun _ => 7) "pipeline failure" (by decide) (by decide)
  simpa [List.range_succ] using h

end VQA
